import Mathlib

/-!
# Verification of the test-execution telemetry pipeline

Shallow embedding, in Lean 4, of the telemetry pipeline of the
AI-agent-model-validation-qa repository:

* `conftest.py` — the call interceptor (`TrackedSession.post/get`,
  `_capture_and_call`), the AST-based assertion extractor inside
  `pytest_runtest_makereport`;
* `scripts/generate_detailed_report.py` — the `_call_key` dedup and the
  `assign_call_index` assertion-to-call correlator;
* `scripts/generate_regression_report.py` — `parse_junit` and
  `generate_html`;
* `mock_services/mock_server.py` — the `infer` endpoint.

Conventions of the embedding:

* Python `None` is modelled as `Option.none`.  A dict key that may be
  absent or hold `None` becomes an `Option` field (the two states are
  indistinguishable through `dict.get`, which is the only access path
  the pipeline uses).
* JSON-decodable bodies are modelled by the inductive `Json`; floats in
  bodies and elapsed times are modelled as `Rat` (their exact numeric
  value is never semantically relevant to any property proved here).
* Python strings are Lean `String`s; slicing `s[:n]` is `pyTake n s`
  (both operate on characters / code points).
-/

/-- JSON values as produced by `response.json()` / passed via `json=`.
Numbers are modelled as rationals. -/
inductive Json where
  | null
  | bool (b : Bool)
  | num (n : Rat)
  | str (s : String)
  | arr (elems : List Json)
  | obj (fields : List (String × Json))

/-- Python truthiness of a JSON value (`bool(x)`): `None`, `False`, `0`,
`""`, `[]`, `{}` are falsy, everything else truthy. -/
def Json.pyTruthy : Json → Bool
  | .null => false
  | .bool b => b
  | .num n => n ≠ 0
  | .str s => s ≠ ""
  | .arr es => !es.isEmpty
  | .obj fs => !fs.isEmpty

/-- Truthiness of an optional JSON value, `none` (Python `None`) being falsy. -/
def truthyOpt : Option Json → Bool
  | none => false
  | some j => j.pyTruthy

/-- Insert a key/value pair into a key-sorted association list
(used to model `json.dumps(..., sort_keys=True)`). -/
def insertKV (p : String × Json) : List (String × Json) → List (String × Json)
  | [] => [p]
  | q :: rest => if p.1 ≤ q.1 then p :: q :: rest else q :: insertKV p rest

/-- Insertion sort of an association list by key. -/
def sortKV : List (String × Json) → List (String × Json)
  | [] => []
  | p :: rest => insertKV p (sortKV rest)

theorem mem_insertKV {p q : String × Json} {l : List (String × Json)}
    (h : q ∈ insertKV p l) : q = p ∨ q ∈ l := by
  induction l with
  | nil => simp [insertKV] at h; simp [h]
  | cons r rest ih =>
    simp only [insertKV] at h
    by_cases hle : p.1 ≤ r.1
    · simp [hle] at h
      rcases h with h | h | h
      · exact Or.inl h
      · exact Or.inr (by simp [h])
      · exact Or.inr (by simp [h])
    · simp [hle] at h
      rcases h with h | h
      · exact Or.inr (by simp [h])
      · rcases ih h with h | h
        · exact Or.inl h
        · exact Or.inr (by simp [h])

theorem mem_sortKV {q : String × Json} {l : List (String × Json)}
    (h : q ∈ sortKV l) : q ∈ l := by
  induction l with
  | nil => simp [sortKV] at h
  | cons p rest ih =>
    simp only [sortKV] at h
    rcases mem_insertKV h with h | h
    · simp [h]
    · exact List.mem_cons_of_mem _ (ih h)

/-- `json.dumps(v, sort_keys=True, default=str)`: canonical serialization
with object keys sorted.  String escaping is elided (no property proved
here inspects the serialized text of a string that needs escaping). -/
def Json.dumps : Json → String
  | .null => "null"
  | .bool b => if b then "true" else "false"
  | .num n => toString n
  | .str s => "\x22" ++ s ++ "\x22"
  | .arr es => "[" ++ String.intercalate ", "
      (es.attach.map (fun e => Json.dumps e.1)) ++ "]"
  | .obj fs => "\x7b" ++ String.intercalate ", "
      (((sortKV fs).attach).map
        (fun q => "\x22" ++ q.1.1 ++ "\x22: " ++ Json.dumps q.1.2)) ++ "\x7d"
decreasing_by
  · have := List.sizeOf_lt_of_mem e.2
    simp only [Json.arr.sizeOf_spec]
    omega
  · have hmem : q.1 ∈ fs := mem_sortKV q.2
    have := List.sizeOf_lt_of_mem hmem
    have h2 : sizeOf q.1.2 < sizeOf q.1 := by
      obtain ⟨a, b⟩ := q.1
      simp only [Prod.mk.sizeOf_spec]
      omega
    simp only [Json.obj.sizeOf_spec]
    omega

/-- `json.dumps` applied to an optional value, `json.dumps(None) = "null"`. -/
def dumpsOpt : Option Json → String
  | none => "null"
  | some j => j.dumps

/-- One captured API-call dict, as appended to a capture buffer
(`TrackedSession._captured_calls` or `_GLOBAL_API_CALLS`).  Each field is
an `Option`: `none` means the dict key is absent or holds `None` — the
two states are indistinguishable through `dict.get`. -/
structure Entry where
  method : Option String := none
  url : Option String := none
  request_payload : Option Json := none
  request_data : Option Json := none
  request_params : Option Json := none
  status_code : Option Int := none
  elapsed_seconds : Option Rat := none
  response_payload : Option Json := none
  response_text : Option String := none

/-- `_call_key` of `generate_detailed_report.py` (lines 340–358): the
content key used to deduplicate captured calls.  `req` falls back from
`request_payload` to `request_params or request_data` (Python `or`:
first truthy operand).  The `except` branches of the source are
unreachable in this model because `json.dumps(..., default=str)` is
total on JSON data, so `response_text` never enters the key. -/
def call_key (c : Entry) : Option String × Option String × Option Int × String × String :=
  let req : Option Json :=
    match c.request_payload with
    | some v => some v
    | none => if truthyOpt c.request_params then c.request_params else c.request_data
  (c.method, c.url, c.status_code, dumpsOpt req, dumpsOpt c.response_payload)

/-- The dedup loop of `generate_detailed_report.py` (lines 360–367):
keep the first occurrence of each `_call_key`, preserving order. -/
def dedupCallsGo (seen : List (Option String × Option String × Option Int × String × String)) :
    List Entry → List Entry
  | [] => []
  | c :: rest =>
    let k := call_key c
    if k ∈ seen then dedupCallsGo seen rest
    else c :: dedupCallsGo (k :: seen) rest

/-- `deduped_calls` of `generate_detailed_report.py`. -/
def dedupCalls (calls : List Entry) : List Entry := dedupCallsGo [] calls

/-- Python slicing `s[:n]` on a string (by characters). -/
def pyTake (n : Nat) (s : String) : String := ⟨s.data.take n⟩

/-- The response object returned by the underlying (un-patched) network
call, together with the two ways interacting with it can raise:

* `jsonBody = Except.error ()` models `response.json()` raising (body is
  not valid JSON);
* `buildFails = true` models an exception while building the detailed
  record dict — i.e. an attribute access such as `resp.status_code` or
  `resp.elapsed.total_seconds()` raising (possible when a patched
  session returns a non-`Response` object).  For a genuine
  `requests.Response` this is `false`.

`elapsedRounded` holds `round(resp.elapsed.total_seconds(), 3)`. -/
structure Resp where
  status_code : Int
  elapsedRounded : Rat
  jsonBody : Except Unit Json
  text : String
  buildFails : Bool

/-- The `response_payload` / `response_text` pair recorded by every
capture path: `try: entry["response_payload"] = resp.json() except:
entry["response_text"] = resp.text[:500] if resp.text else ""`.
Note `resp.text[:500] if resp.text else ""` equals `resp.text[:500]`
(an empty string sliced is empty). -/
def respFields (r : Resp) : Option Json × Option String :=
  match r.jsonBody with
  | .ok j => (some j, none)
  | .error _ => (none, some (pyTake 500 r.text))

/-- The api_call dict built by `TrackedSession.post` (conftest.py
lines 50–63). -/
def trackedPostEntry (url : String) (jsonArg dataArg : Option Json) (r : Resp) : Entry :=
  { method := some "POST"
    url := some url
    request_payload := jsonArg
    request_data := dataArg
    status_code := some r.status_code
    elapsed_seconds := some r.elapsedRounded
    response_payload := (respFields r).1
    response_text := (respFields r).2 }

/-- The api_call dict built by `TrackedSession.get` (conftest.py
lines 71–82). -/
def trackedGetEntry (url : String) (paramsArg : Option Json) (r : Resp) : Entry :=
  { method := some "GET"
    url := some url
    request_params := paramsArg
    status_code := some r.status_code
    elapsed_seconds := some r.elapsedRounded
    response_payload := (respFields r).1
    response_text := (respFields r).2 }

/-- The detailed entry built by `_capture_and_call` (conftest.py
lines 118–130) for either verb. -/
def globalEntry (methodName url : String) (jsonArg dataArg paramsArg : Option Json)
    (r : Resp) : Entry :=
  { method := some methodName
    url := some url
    request_payload := jsonArg
    request_data := dataArg
    request_params := paramsArg
    status_code := some r.status_code
    elapsed_seconds := some r.elapsedRounded
    response_payload := (respFields r).1
    response_text := (respFields r).2 }

/-- The minimal fallback entry of `_capture_and_call` (conftest.py
line 132): `entry = {"method": method_name, "url": url}`. -/
def minimalEntry (methodName url : String) : Entry :=
  { method := some methodName, url := some url }

/-- A Python exception (network error, attribute error, …), carried as
its message. -/
abbrev PyErr := String

/-- `_capture_and_call(method_name, self, url, **kwargs)` for a session
that is **not** the designated `TrackedSession` (conftest.py
lines 112–135).  `net` is the outcome of the underlying
`_orig_post/_orig_get` call; a raised exception propagates unchanged and
nothing is appended.  On a response: the detailed entry is built inside
a `try`; if building it raises (`r.buildFails`), the minimal
method+url entry is appended instead.  The append happens under
`_GLOBAL_API_LOCK`; the lock is not modelled (the buffer is threaded
explicitly).  Returns the new global buffer and the original response. -/
def capture_and_call (methodName : String) (net : Except PyErr Resp) (url : String)
    (jsonArg dataArg paramsArg : Option Json) (globalBuf : List Entry) :
    Except PyErr (List Entry × Resp) :=
  match net with
  | .error e => .error e
  | .ok r =>
    let entry :=
      if r.buildFails then minimalEntry methodName url
      else globalEntry methodName url jsonArg dataArg paramsArg r
    .ok (globalBuf ++ [entry], r)

/-- `TrackedSession.post` (conftest.py lines 46–65).  The inner
`super().post(...)` reaches the patched class method, whose
`isinstance(self, TrackedSession)` branch performs the original call
with **no** global capture, so only the session buffer is touched.
The api_call dict is built with no enclosing `try`, so if an attribute
access raises (`r.buildFails`) the exception propagates and nothing is
appended; otherwise exactly one entry is appended to
`self._captured_calls` and the original response is returned. -/
def trackedPost (net : Except PyErr Resp) (url : String) (jsonArg dataArg : Option Json)
    (sessionBuf : List Entry) : Except PyErr (List Entry × Resp) :=
  match net with
  | .error e => .error e
  | .ok r =>
    if r.buildFails then .error "AttributeError"
    else .ok (sessionBuf ++ [trackedPostEntry url jsonArg dataArg r], r)

/-- `TrackedSession.get` (conftest.py lines 67–85); same shape as
`trackedPost` with the GET capture dict. -/
def trackedGet (net : Except PyErr Resp) (url : String) (paramsArg : Option Json)
    (sessionBuf : List Entry) : Except PyErr (List Entry × Resp) :=
  match net with
  | .error e => .error e
  | .ok r =>
    if r.buildFails then .error "AttributeError"
    else .ok (sessionBuf ++ [trackedGetEntry url paramsArg r], r)

theorem dedupCallsGo_sublist (calls : List Entry) :
    ∀ seen, List.Sublist (dedupCallsGo seen calls) calls := by
  induction calls with
  | nil => intro seen; simp [dedupCallsGo]
  | cons c rest ih =>
    intro seen
    simp only [dedupCallsGo]
    by_cases hk : call_key c ∈ seen
    · simp only [hk, if_true]
      exact (ih seen).trans (List.sublist_cons_self c rest)
    · simp only [hk, if_false]
      exact (ih (call_key c :: seen)).cons₂ c

theorem dedupCallsGo_of_distinct (calls : List Entry) :
    ∀ seen, (∀ c ∈ calls, call_key c ∉ seen) →
      calls.Pairwise (fun a b => call_key a ≠ call_key b) →
      dedupCallsGo seen calls = calls := by
  induction calls with
  | nil => intro seen _ _; simp [dedupCallsGo]
  | cons c rest ih =>
    intro seen hfresh hpw
    have hc : call_key c ∉ seen := hfresh c (List.mem_cons_self c rest)
    simp only [dedupCallsGo, hc, if_false]
    rw [ih (call_key c :: seen) ?_ (List.Pairwise.of_cons hpw)]
    intro c' hc'
    simp only [List.mem_cons]
    push_neg
    refine ⟨?_, hfresh c' (List.mem_cons_of_mem c hc')⟩
    exact fun h => (List.rel_of_pairwise_cons hpw hc') h.symm

theorem dedupCalls_pair_of_eq_key {a b : Entry} (h : call_key b = call_key a) :
    dedupCalls [a, b] = [a] := by
  simp [dedupCalls, dedupCallsGo, h]

/-- **C1.** The deduplication of captured calls performed when the run
artifact is rendered is keyed on content only — method, url, status
code, normalized request body, normalized response body — with elapsed
time excluded: (1) changing `elapsed_seconds` never changes the key;
(2) two calls differing only in elapsed time collapse to one;
(3) the same underlying exchange observed both by `TrackedSession.post`
and by the global `_capture_and_call` path yields records with equal
keys, hence exactly one record after dedup; (4) dedup preserves the
original insertion order (the result is a sublist of the input), and a
list of pairwise key-distinct calls passes through unchanged. -/
theorem c1_calls_dedup_by_content_key :
    (∀ (c : Entry) (t : Option Rat),
      call_key { c with elapsed_seconds := t } = call_key c)
    ∧ (∀ (c : Entry) (t : Option Rat),
      dedupCalls [c, { c with elapsed_seconds := t }] = [c])
    ∧ (∀ (url : String) (j : Json) (dataArg paramsArg : Option Json) (r : Resp),
      dedupCalls [trackedPostEntry url (some j) dataArg r,
                  globalEntry "POST" url (some j) dataArg paramsArg r]
        = [trackedPostEntry url (some j) dataArg r])
    ∧ (∀ calls : List Entry, List.Sublist (dedupCalls calls) calls)
    ∧ (∀ calls : List Entry,
      calls.Pairwise (fun a b => call_key a ≠ call_key b) →
      dedupCalls calls = calls) := by
  refine ⟨fun c t => rfl, fun c t => dedupCalls_pair_of_eq_key rfl,
    fun url j dataArg paramsArg r => dedupCalls_pair_of_eq_key rfl,
    fun calls => dedupCallsGo_sublist calls [],
    fun calls hpw => dedupCallsGo_of_distinct calls [] (by simp) hpw⟩

/-- Witness for C1 at concrete inputs: two key-distinct GET records
survive dedup in order, and a record paired with its elapsed-time
variant collapses to one. -/
theorem c1_witness :
    dedupCalls [{ method := some "GET", url := some "http://a" : Entry },
                { method := some "GET", url := some "http://b" : Entry }]
      = [{ method := some "GET", url := some "http://a" : Entry },
         { method := some "GET", url := some "http://b" : Entry }]
    ∧ dedupCalls [{ method := some "GET", url := some "http://a" : Entry },
                  { method := some "GET", url := some "http://a",
                    elapsed_seconds := some 7 : Entry }]
      = [{ method := some "GET", url := some "http://a" : Entry }] :=
  ⟨c1_calls_dedup_by_content_key.2.2.2.2 _ (by decide),
   c1_calls_dedup_by_content_key.2.1
     { method := some "GET", url := some "http://a" } (some 7)⟩

/-- **C4.** For every intercepted GET or POST call that receives a
response, if the body fails to decode as JSON the interceptor records
`response_text` truncated to at most 500 characters instead of raising
— on the tracked-session paths, on the global fallback path — and in
all cases the original response object is returned to the caller
unchanged (the very same `Resp`, hence with status code and body
unchanged). -/
theorem c4_decode_failure_records_text :
    (∀ (r : Resp), ((pyTake 500 r.text).length ≤ 500))
    ∧ (∀ (r : Resp) (url : String) (jArg dArg : Option Json) (buf : List Entry),
      r.buildFails = false → r.jsonBody = .error () →
      trackedPost (.ok r) url jArg dArg buf
          = .ok (buf ++ [trackedPostEntry url jArg dArg r], r)
        ∧ (trackedPostEntry url jArg dArg r).response_text = some (pyTake 500 r.text)
        ∧ (trackedPostEntry url jArg dArg r).response_payload = none)
    ∧ (∀ (r : Resp) (url : String) (pArg : Option Json) (buf : List Entry),
      r.buildFails = false → r.jsonBody = .error () →
      trackedGet (.ok r) url pArg buf
          = .ok (buf ++ [trackedGetEntry url pArg r], r)
        ∧ (trackedGetEntry url pArg r).response_text = some (pyTake 500 r.text)
        ∧ (trackedGetEntry url pArg r).response_payload = none)
    ∧ (∀ (r : Resp) (m url : String) (jArg dArg pArg : Option Json) (buf : List Entry),
      r.buildFails = false → r.jsonBody = .error () →
      capture_and_call m (.ok r) url jArg dArg pArg buf
          = .ok (buf ++ [globalEntry m url jArg dArg pArg r], r)
        ∧ (globalEntry m url jArg dArg pArg r).response_text = some (pyTake 500 r.text))
    ∧ (∀ (r : Resp) (m url : String) (jArg dArg pArg : Option Json) (buf : List Entry),
      ∃ buf2, capture_and_call m (.ok r) url jArg dArg pArg buf = .ok (buf2, r)) := by
  refine ⟨?_, ?_, ?_, ?_, ?_⟩
  · intro r
    show ((r.text.data.take 500).length ≤ 500)
    rw [List.length_take]
    exact min_le_left _ _
  · intro r url jArg dArg buf hb hj
    exact ⟨by simp [trackedPost, hb], by simp [trackedPostEntry, respFields, hj],
      by simp [trackedPostEntry, respFields, hj]⟩
  · intro r url pArg buf hb hj
    exact ⟨by simp [trackedGet, hb], by simp [trackedGetEntry, respFields, hj],
      by simp [trackedGetEntry, respFields, hj]⟩
  · intro r m url jArg dArg pArg buf hb hj
    exact ⟨by simp [capture_and_call, hb], by simp [globalEntry, respFields, hj]⟩
  · intro r m url jArg dArg pArg buf
    by_cases hb : r.buildFails
    · exact ⟨buf ++ [minimalEntry m url], by simp [capture_and_call, hb]⟩
    · exact ⟨buf ++ [globalEntry m url jArg dArg pArg r], by simp [capture_and_call, hb]⟩

/-- Witness for C4 at a concrete undecodable response: text is recorded
truncated and the response comes back unchanged. -/
theorem c4_witness :
    trackedPost (.ok ⟨500, 1/100, .error (), "oops not json", false⟩)
        "http://m/v1/model/infer" none none []
      = .ok ([trackedPostEntry "http://m/v1/model/infer" none none
              ⟨500, 1/100, .error (), "oops not json", false⟩],
             ⟨500, 1/100, .error (), "oops not json", false⟩)
    ∧ (trackedPostEntry "http://m/v1/model/infer" none none
        ⟨500, 1/100, .error (), "oops not json", false⟩).response_text
      = some (pyTake 500 "oops not json") :=
  ⟨(c4_decode_failure_records_text.2.1
      ⟨500, 1/100, .error (), "oops not json", false⟩
      "http://m/v1/model/infer" none none [] rfl rfl).1,
   (c4_decode_failure_records_text.2.1
      ⟨500, 1/100, .error (), "oops not json", false⟩
      "http://m/v1/model/infer" none none [] rfl rfl).2.1⟩

/-- **C6 counterexample.**  The claim states that a captured CallRecord
has neither `response_payload` nor `response_text` populated only when
the call failed before a response was received.  Concretely refuted:
here the underlying call succeeds (status 200, decodable JSON body),
but building the detailed record fails, so `_capture_and_call` appends
the minimal fallback entry — a record with *neither* field populated
even though a response was received (and is returned to the caller). -/
theorem c6_counterexample :
    capture_and_call "POST" (.ok ⟨200, 1/10, .ok (Json.obj []), "ok", true⟩)
        "http://u" none none none []
      = .ok ([minimalEntry "POST" "http://u"], ⟨200, 1/10, .ok (Json.obj []), "ok", true⟩)
    ∧ (minimalEntry "POST" "http://u").response_payload = none
    ∧ (minimalEntry "POST" "http://u").response_text = none
    ∧ (minimalEntry "POST" "http://u").status_code = none :=
  ⟨rfl, rfl, rfl, rfl⟩

/-- **C6 (amended).**  Every CallRecord appended to a capture buffer has
at most one of `response_payload` / `response_text` populated — never
both.  The detailed records built by `TrackedSession.post`,
`TrackedSession.get` and `_capture_and_call` have exactly one of the two
populated; the minimal fallback entry (appended when constructing the
detailed record fails, even though a response was received) has
neither; and when the underlying call raises before a response, the
exception propagates and nothing is appended at all. -/
theorem c6_response_field_exclusivity :
    (∀ (url : String) (jArg dArg : Option Json) (r : Resp),
      (trackedPostEntry url jArg dArg r).response_payload.isSome
        = !(trackedPostEntry url jArg dArg r).response_text.isSome)
    ∧ (∀ (url : String) (pArg : Option Json) (r : Resp),
      (trackedGetEntry url pArg r).response_payload.isSome
        = !(trackedGetEntry url pArg r).response_text.isSome)
    ∧ (∀ (m url : String) (jArg dArg pArg : Option Json) (r : Resp),
      (globalEntry m url jArg dArg pArg r).response_payload.isSome
        = !(globalEntry m url jArg dArg pArg r).response_text.isSome)
    ∧ (∀ m url : String, (minimalEntry m url).response_payload = none
        ∧ (minimalEntry m url).response_text = none)
    ∧ (∀ (m url : String) (jArg dArg pArg : Option Json) (buf : List Entry) (e : PyErr),
      capture_and_call m (.error e) url jArg dArg pArg buf = .error e)
    ∧ (∀ (url : String) (jArg dArg : Option Json) (buf : List Entry) (e : PyErr),
      trackedPost (.error e) url jArg dArg buf = .error e)
    ∧ (∀ (url : String) (pArg : Option Json) (buf : List Entry) (e : PyErr),
      trackedGet (.error e) url pArg buf = .error e) := by
  refine ⟨?_, ?_, ?_, fun m url => ⟨rfl, rfl⟩, fun _ _ _ _ _ _ _ => rfl,
    fun _ _ _ _ _ => rfl, fun _ _ _ _ => rfl⟩
  · intro url jArg dArg r
    rcases hj : r.jsonBody with j | j <;> simp [trackedPostEntry, respFields, hj]
  · intro url pArg r
    rcases hj : r.jsonBody with j | j <;> simp [trackedGetEntry, respFields, hj]
  · intro m url jArg dArg pArg r
    rcases hj : r.jsonBody with j | j <;> simp [globalEntry, respFields, hj]

/-- **C10.** Every POST or GET issued through a session that is not the
designated `TrackedSession`: when the underlying network call returns a
response, exactly one entry is appended to the global fallback buffer
(the buffer grows by exactly that entry) — the minimal method+url-only
entry when constructing the detailed record fails — and when the
underlying call raises, nothing is appended and the exception
propagates to the caller. -/
theorem c10_global_capture_appends_exactly_one :
    ∀ (m url : String) (jArg dArg pArg : Option Json) (buf : List Entry),
      (∀ e : PyErr, capture_and_call m (.error e) url jArg dArg pArg buf = .error e)
      ∧ (∀ r : Resp, ∃ entry,
        capture_and_call m (.ok r) url jArg dArg pArg buf = .ok (buf ++ [entry], r)
        ∧ (r.buildFails = true →
            entry.method = some m ∧ entry.url = some url
            ∧ entry.request_payload = none ∧ entry.request_data = none
            ∧ entry.request_params = none ∧ entry.status_code = none
            ∧ entry.elapsed_seconds = none ∧ entry.response_payload = none
            ∧ entry.response_text = none)) := by
  intro m url jArg dArg pArg buf
  refine ⟨fun e => rfl, fun r => ?_⟩
  by_cases hb : r.buildFails
  · exact ⟨minimalEntry m url, by simp [capture_and_call, hb],
      fun _ => ⟨rfl, rfl, rfl, rfl, rfl, rfl, rfl, rfl, rfl⟩⟩
  · exact ⟨globalEntry m url jArg dArg pArg r, by simp [capture_and_call, hb],
      fun h => absurd h (by simp [hb])⟩

/-- Witness for C10 at concrete inputs: a raised network error
propagates with nothing appended, and a degenerate response appends the
minimal entry. -/
theorem c10_witness :
    capture_and_call "GET" (.error "ConnectionError") "http://u" none none none []
      = .error "ConnectionError"
    ∧ ∃ entry,
      capture_and_call "GET" (.ok ⟨200, 1/10, .ok Json.null, "", true⟩)
          "http://u" none none none []
        = .ok ([] ++ [entry], ⟨200, 1/10, .ok Json.null, "", true⟩)
      ∧ entry.method = some "GET" ∧ entry.url = some "http://u" :=
  ⟨(c10_global_capture_appends_exactly_one "GET" "http://u" none none none []).1
      "ConnectionError",
   by
    obtain ⟨entry, he, hmin⟩ :=
      (c10_global_capture_appends_exactly_one "GET" "http://u" none none none []).2
        ⟨200, 1/10, .ok Json.null, "", true⟩
    obtain ⟨h1, h2, -⟩ := hmin rfl
    exact ⟨entry, he, h1, h2⟩⟩

/-- `needle` is a prefix of `hay` (character-wise). -/
def listIsPrefix : List Char → List Char → Bool
  | [], _ => true
  | _ :: _, [] => false
  | a :: as, b :: bs => a == b && listIsPrefix as bs

/-- `needle` occurs as a contiguous substring of `hay`. -/
def containsSubList (needle : List Char) : List Char → Bool
  | [] => listIsPrefix needle []
  | c :: rest => listIsPrefix needle (c :: rest) || containsSubList needle rest

/-- Python `needle in hay` on strings: substring containment. -/
def strContains (hay needle : String) : Bool := containsSubList needle.data hay.data

/-- Python `str.lower()` (ASCII letters; the strings this repository
feeds through `lower` are ASCII). -/
def strLower (s : String) : String := ⟨s.data.map Char.toLower⟩

/-- A regex word character `\w` (ASCII: letters, digits, underscore —
every condition text scanned by the correlator is ASCII). -/
def isWordChar (c : Char) : Bool := c.isAlphanum || c == '_'

/-- Numeric value of a digit run (`int` applied to the matched group). -/
def digitsToNat (ds : List Char) : Nat :=
  ds.foldl (fun acc c => 10 * acc + (c.toNat - 48)) 0

/-- Try to complete a match of `(\d+)\b` immediately after an `r` whose
left side is a word boundary.  The greedy digit run must be nonempty
and be followed by end-of-string or a non-word character (no shorter
digit split can succeed, since the character after any shorter run is a
digit, which is a word character). -/
def rTokenAt (rest : List Char) : Option Nat :=
  let ds := rest.takeWhile (fun c => c.isDigit)
  if ds.isEmpty then none
  else match rest.drop ds.length with
    | [] => some (digitsToNat ds)
    | c :: _ => if isWordChar c then none else some (digitsToNat ds)

/-- Leftmost-match scan for `re.search(r"\br(\d+)\b", s)`: at each
position whose left side is a word boundary and whose character is `r`,
try to match the digit group; otherwise advance one character.
`prevW` records whether the previous character was a word character. -/
def searchRNAux : Bool → List Char → Option Nat
  | _, [] => none
  | prevW, c :: rest =>
    if !prevW && c == 'r' then
      match rTokenAt rest with
      | some n => some n
      | none => searchRNAux (isWordChar c) rest
    else searchRNAux (isWordChar c) rest

/-- `re.search(r"\br(\d+)\b", condition)` of `assign_call_index`,
returning the integer value of the first direct `rN` token. -/
def searchRN (s : String) : Option Nat := searchRNAux false s.data

/-- One pass of `for var, idx_mapped in d.items(): if var in condition:
return idx_mapped` — the first dict entry (in insertion order) whose
variable name occurs in the condition text wins. -/
def findContained (vars : List (String × Nat)) (cond : String) : Option Nat :=
  match vars with
  | [] => none
  | (v, i) :: rest => if strContains cond v then some i else findContained rest cond

/-- `assign_call_index` of `generate_detailed_report.py` (lines
240–255).  `responseVars` models `response_var_to_index` (names bound
via `name = rN.json()` in the test source) and `callVars` models
`call_var_to_index` (names `rN` bound via `rN = session.post/get(...)`),
both in source-scan (dict-insertion) order.  Rule order as in the
source: (1) direct `rN` token via the regex, (2) response-variable
containment, (3) call-variable containment, else unassigned.  An empty
condition (Python falsy) is unassigned. -/
def assign_call_index (responseVars callVars : List (String × Nat)) (cond : String) :
    Option Nat :=
  if cond == "" then none
  else
    match searchRN cond with
    | some n => some n
    | none =>
      match findContained responseVars cond with
      | some i => some i
      | none => findContained callVars cond

/-- **C2 counterexample.**  The claim states the variable-binding rule
is checked before the direct-index rule, so a condition containing both
the response variable bound on call 1 (`urgent_response = r1.json()`,
giving the map entry `("urgent_response", 1)`) and a direct reference
`r2` would be assigned to call 1.  The code checks the direct `rN`
regex first: the condition below is assigned to call 2, not call 1. -/
theorem c2_counterexample :
    assign_call_index [("urgent_response", 1)] []
        "urgent_response[0] == 1 and r2.status_code == 200" = some 2
    ∧ assign_call_index [("urgent_response", 1)] []
        "urgent_response[0] == 1 and r2.status_code == 200" ≠ some 1 := by
  refine ⟨by decide, by decide⟩

/-- **C2 (amended).**  The correlator checks the direct-index rule
first: an assertion whose condition text contains a direct `rM` token
is assigned to call M even when a bound response-variable name for some
other call also occurs in it; the variable-binding rule applies only
when no direct token matches, the first matching map entry wins, and an
assertion matching no rule is left unassigned. -/
theorem c2_rule_order :
    ∀ (responseVars callVars : List (String × Nat)) (cond : String) (n : Nat),
      (searchRN cond = some n →
        assign_call_index responseVars callVars cond = some n)
      ∧ (cond ≠ "" → searchRN cond = none →
        findContained responseVars cond = some n →
        assign_call_index responseVars callVars cond = some n)
      ∧ (cond ≠ "" → searchRN cond = none →
        findContained responseVars cond = none →
        findContained callVars cond = none →
        assign_call_index responseVars callVars cond = none) := by
  intro responseVars callVars cond n
  refine ⟨?_, ?_, ?_⟩
  · intro hs
    have hne : (cond == "") = false := by
      rcases h : cond == "" with _ | _
      · rfl
      · rw [beq_iff_eq] at h
        subst h
        simp [searchRN, searchRNAux] at hs
    simp [assign_call_index, hne, hs]
  · intro hne hs hf
    have hne2 : (cond == "") = false := by
      rcases h : cond == "" with _ | _
      · rfl
      · exact absurd (beq_iff_eq.mp h) hne
    simp [assign_call_index, hne2, hs, hf]
  · intro hne hs hf hg
    have hne2 : (cond == "") = false := by
      rcases h : cond == "" with _ | _
      · rfl
      · exact absurd (beq_iff_eq.mp h) hne
    simp [assign_call_index, hne2, hs, hf, hg]

/-- Witness for C2's amended theorem at concrete inputs: the
direct-index rule fires on `r2` despite the bound `urgent_response`
also occurring; the binding rule fires when no direct token exists;
an assertion matching nothing stays unassigned. -/
theorem c2_witness :
    assign_call_index [("urgent_response", 1)] []
        "urgent_response[0] == 1 and r2.status_code == 200" = some 2
    ∧ assign_call_index [("urgent_response", 1)] []
        "urgent_response[0] == 1" = some 1
    ∧ assign_call_index [("urgent_response", 1)] [] "x == 1" = none :=
  ⟨(c2_rule_order [("urgent_response", 1)] []
      "urgent_response[0] == 1 and r2.status_code == 200" 2).1 (by decide),
   (c2_rule_order [("urgent_response", 1)] [] "urgent_response[0] == 1" 1).2.1
      (by decide) (by decide) (by decide),
   (c2_rule_order [("urgent_response", 1)] [] "x == 1" 0).2.2
      (by decide) (by decide) (by decide) (by decide)⟩

/-- Python statements of a test function body, as seen by `ast.parse` /
`ast.walk`.  Expressions are carried as their `ast.unparse`d source
text (so `ast.unparse` is modelled as the identity on that
representation); expression nodes themselves are not walked because an
`Assert` node is a statement and cannot occur inside an expression.
The bodies of the `except` handlers of a `try` are concatenated into
one list. -/
inductive Stmt where
  | assertStmt (test : String) (msg : Option String)
  | ifStmt (cond : String) (body orelse : List Stmt)
  | whileStmt (cond : String) (body orelse : List Stmt)
  | forStmt (target iter : String) (body orelse : List Stmt)
  | withStmt (items : String) (body : List Stmt)
  | tryStmt (body handlers orelse finalbody : List Stmt)
  | funcDef (name : String) (body : List Stmt)
  | other (code : String)

/-- `ast.iter_child_nodes`, restricted to statement children. -/
def Stmt.children : Stmt → List Stmt
  | .assertStmt _ _ => []
  | .ifStmt _ b e => b ++ e
  | .whileStmt _ b e => b ++ e
  | .forStmt _ _ b e => b ++ e
  | .withStmt _ b => b
  | .tryStmt b h e f => b ++ h ++ e ++ f
  | .funcDef _ b => b
  | .other _ => []

mutual

/-- Number of AST nodes in a statement (for termination of the walk). -/
def stmtSize : Stmt → Nat
  | .assertStmt _ _ => 1
  | .ifStmt _ b e => 1 + listSize b + listSize e
  | .whileStmt _ b e => 1 + listSize b + listSize e
  | .forStmt _ _ b e => 1 + listSize b + listSize e
  | .withStmt _ b => 1 + listSize b
  | .tryStmt b h e f => 1 + listSize b + listSize h + listSize e + listSize f
  | .funcDef _ b => 1 + listSize b
  | .other _ => 1

/-- Number of AST nodes in a statement list. -/
def listSize : List Stmt → Nat
  | [] => 0
  | s :: rest => stmtSize s + listSize rest

end

theorem listSize_append (a b : List Stmt) :
    listSize (a ++ b) = listSize a + listSize b := by
  induction a with
  | nil => simp [listSize]
  | cons s rest ih => simp [listSize, ih]; omega

theorem children_size_lt (s : Stmt) : listSize s.children < stmtSize s := by
  cases s <;> simp [Stmt.children, stmtSize, listSize, listSize_append] <;> omega

/-- `ast.walk(tree)`: breadth-first traversal of all nodes, starting
from the queue of root statements. -/
def walkBFS : List Stmt → List Stmt
  | [] => []
  | s :: q => s :: walkBFS (q ++ s.children)
termination_by q => listSize q
decreasing_by
  have := children_size_lt s
  simp [listSize_append, listSize]
  omega

/-- Whether a node is an `ast.Assert`. -/
def Stmt.isAssert : Stmt → Bool
  | .assertStmt _ _ => true
  | _ => false

mutual

/-- Total number of assert statements nested anywhere inside a
statement (itself included). -/
def stmtAsserts : Stmt → Nat
  | .assertStmt _ _ => 1
  | .ifStmt _ b e => listAsserts b + listAsserts e
  | .whileStmt _ b e => listAsserts b + listAsserts e
  | .forStmt _ _ b e => listAsserts b + listAsserts e
  | .withStmt _ b => listAsserts b
  | .tryStmt b h e f => listAsserts b + listAsserts h + listAsserts e + listAsserts f
  | .funcDef _ b => listAsserts b
  | .other _ => 0

/-- Total number of assert statements nested anywhere inside a
statement list. -/
def listAsserts : List Stmt → Nat
  | [] => 0
  | s :: rest => stmtAsserts s + listAsserts rest

end

theorem listAsserts_append (a b : List Stmt) :
    listAsserts (a ++ b) = listAsserts a + listAsserts b := by
  induction a with
  | nil => simp [listAsserts]
  | cons s rest ih => simp [listAsserts, ih]; omega

theorem stmtAsserts_children (s : Stmt) :
    stmtAsserts s = (if s.isAssert then 1 else 0) + listAsserts s.children := by
  cases s <;>
    simp [stmtAsserts, Stmt.children, Stmt.isAssert, listAsserts, listAsserts_append] <;>
    omega

theorem walkBFS_countP_aux :
    ∀ (n : Nat) (q : List Stmt), listSize q < n →
      (walkBFS q).countP (fun s => s.isAssert) = listAsserts q := by
  intro n
  induction n with
  | zero => intro q h; omega
  | succ n ih =>
    intro q h
    match q with
    | [] => simp [walkBFS, listAsserts]
    | s :: rest =>
      have hsz : listSize (rest ++ s.children) < n := by
        have h1 := children_size_lt s
        have h2 := listSize_append rest s.children
        simp [listSize] at h
        omega
      rw [walkBFS, List.countP_cons, ih (rest ++ s.children) hsz,
        listAsserts_append]
      simp only [listAsserts]
      rw [stmtAsserts_children s]
      by_cases ha : s.isAssert <;> simp [ha] <;> omega

theorem walkBFS_countP (q : List Stmt) :
    (walkBFS q).countP (fun s => s.isAssert) = listAsserts q :=
  walkBFS_countP_aux (listSize q + 1) q (Nat.lt_succ_self _)

/-- One extracted assertion, as appended by `pytest_runtest_makereport`
(conftest.py lines 199–203). -/
structure AssertionRecord where
  condition : String
  passed : Bool
  full_assertion : String
deriving DecidableEq

/-- The record built for one walked node, `none` for non-`Assert`
nodes: `condition = ast.unparse(node.test)`, `passed = (report.outcome
== "passed")`, `full_assertion = "assert " + condition`. -/
def extractRecord (outcome : String) (s : Stmt) : Option AssertionRecord :=
  match s with
  | .assertStmt t _ => some ⟨t, outcome == "passed", "assert " ++ t⟩
  | _ => none

/-- The assertion-extraction loop of `pytest_runtest_makereport`
(conftest.py lines 192–203): walk the parsed tree, keep every `Assert`
node's record, in walk order. -/
def extractAssertionsFromTree (tree : List Stmt) (outcome : String) :
    List AssertionRecord :=
  (walkBFS tree).filterMap (extractRecord outcome)

/-- The whole source-to-assertions step of `pytest_runtest_makereport`
(conftest.py lines 185–206).  `src` is the outcome of obtaining and
parsing the test function's source:

* `.error e` — `inspect.getsource(item.obj)` raised `e`.  This call
  sits **outside** the `try` block, so the exception propagates out of
  the hook;
* `.ok none` — source retrieved but `ast.parse` raised; the `except`
  catches it and the assertion list stays empty;
* `.ok (some tree)` — source parsed; `tree` is the statement list of
  the parsed module (the `Module`/`FunctionDef` wrappers and expression
  nodes also visited by `ast.walk` contribute no `Assert` nodes). -/
def extractAssertionsHook (src : Except PyErr (Option (List Stmt))) (outcome : String) :
    Except PyErr (List AssertionRecord) :=
  match src with
  | .error e => .error e
  | .ok none => .ok []
  | .ok (some tree) => .ok (extractAssertionsFromTree tree outcome)

/-- **C3 counterexample.**  The claim states that when the test
function's source is unavailable, extraction yields an empty sequence
and never raises out of the result-reporting hook.  But
`inspect.getsource` is called *outside* the `try` block, so when the
source is unavailable the lookup error propagates out of
`pytest_runtest_makereport` instead of producing an empty list. -/
theorem c3_counterexample :
    extractAssertionsHook (.error "OSError: could not get source code") "passed"
      = .error "OSError: could not get source code"
    ∧ extractAssertionsHook (.error "OSError: could not get source code") "passed"
      ≠ .ok [] :=
  ⟨rfl, by simp [extractAssertionsHook]⟩

/-- **C3 (amended).**  When the source text is *available*: a parse
failure yields an empty assertion sequence and the hook never raises
(every available-source outcome is an `.ok`).  When the source is
*unavailable*, the `inspect.getsource` exception propagates out of the
hook unchanged. -/
theorem c3_parse_failure_yields_empty :
    (∀ outcome : String, extractAssertionsHook (.ok none) outcome = .ok [])
    ∧ (∀ (tr : Option (List Stmt)) (outcome : String),
        ∃ recs, extractAssertionsHook (.ok tr) outcome = .ok recs)
    ∧ (∀ (e : PyErr) (outcome : String),
        extractAssertionsHook (.error e) outcome = .error e) := by
  refine ⟨fun outcome => rfl, fun tr outcome => ?_, fun e outcome => rfl⟩
  match tr with
  | none => exact ⟨[], rfl⟩
  | some tree => exact ⟨extractAssertionsFromTree tree outcome, rfl⟩

theorem length_filterMap_extract (outcome : String) (l : List Stmt) :
    (l.filterMap (extractRecord outcome)).length
      = l.countP (fun s => s.isAssert) := by
  induction l with
  | nil => simp
  | cons s rest ih =>
    cases s <;> simp [extractRecord, List.countP_cons, Stmt.isAssert, ih]

/-- **C5.** For every test function whose source parses, the extractor
returns exactly one AssertionRecord per assert statement anywhere in
the tree — nested inside conditionals, loops, `with`/`try` blocks,
with or without a custom failure message (the message never affects the
count) — and every returned record has `passed` equal to whether the
test's overall outcome is `"passed"` and `full_assertion` equal to
`"assert "` followed by the condition's reconstructed source text. -/
theorem c5_extractor_completeness :
    ∀ (tree : List Stmt) (outcome : String),
      (extractAssertionsFromTree tree outcome).length = listAsserts tree
      ∧ ∀ rec ∈ extractAssertionsFromTree tree outcome,
          rec.passed = (outcome == "passed")
          ∧ rec.full_assertion = "assert " ++ rec.condition := by
  intro tree outcome
  constructor
  · rw [extractAssertionsFromTree, length_filterMap_extract, walkBFS_countP]
  · intro rec hrec
    rw [extractAssertionsFromTree, List.mem_filterMap] at hrec
    obtain ⟨s, -, hs⟩ := hrec
    cases s <;> simp [extractRecord] at hs
    rw [← hs]
    exact ⟨rfl, rfl⟩

/-- Witness for C5 on a concrete function body with one top-level
assert, one assert nested in a conditional carrying a custom message,
and one non-assert statement: exactly two records come back, and the
record of the nested assert has the stated fields. -/
theorem c5_witness :
    (extractAssertionsFromTree
      [Stmt.funcDef "test_x"
        [Stmt.assertStmt "r1.status_code == 200" none,
         Stmt.ifStmt "flag"
           [Stmt.assertStmt "data[0] == 1" (some "custom message")] [],
         Stmt.other "r1 = session.post(url)"]] "failed").length = 2
    ∧ (AssertionRecord.mk "data[0] == 1" false "assert data[0] == 1")
        ∈ extractAssertionsFromTree
          [Stmt.funcDef "test_x"
            [Stmt.assertStmt "r1.status_code == 200" none,
             Stmt.ifStmt "flag"
               [Stmt.assertStmt "data[0] == 1" (some "custom message")] [],
             Stmt.other "r1 = session.post(url)"]] "failed"
    ∧ (AssertionRecord.mk "data[0] == 1" false "assert data[0] == 1").passed
        = ("failed" == "passed")
    ∧ (AssertionRecord.mk "data[0] == 1" false "assert data[0] == 1").full_assertion
        = "assert " ++ "data[0] == 1" := by
  have hmem : (AssertionRecord.mk "data[0] == 1" false "assert data[0] == 1")
      ∈ extractAssertionsFromTree
        [Stmt.funcDef "test_x"
          [Stmt.assertStmt "r1.status_code == 200" none,
           Stmt.ifStmt "flag"
             [Stmt.assertStmt "data[0] == 1" (some "custom message")] [],
           Stmt.other "r1 = session.post(url)"]] "failed" := by
    simp [extractAssertionsFromTree, walkBFS, Stmt.children, extractRecord]
  have h := c5_extractor_completeness
    [Stmt.funcDef "test_x"
      [Stmt.assertStmt "r1.status_code == 200" none,
       Stmt.ifStmt "flag"
         [Stmt.assertStmt "data[0] == 1" (some "custom message")] [],
       Stmt.other "r1 = session.post(url)"]] "failed"
  refine ⟨?_, hmem, (h.2 _ hmem).1, (h.2 _ hmem).2⟩
  rw [h.1]
  rfl

/-- `Vitals` of `mock_server.py`. -/
structure Vitals where
  bp_systolic : Option Int := none
  bp_diastolic : Option Int := none
  hr : Option Int := none
  spo2 : Option Int := none
  temp_c : Option Rat := none

/-- `InferenceRequest` of `mock_server.py` (pydantic model). -/
structure InferenceRequest where
  patient_id : String
  age : Option Int := none
  sex : Option String := none
  vitals : Option Vitals := none
  chief_complaint : Option String := none
  onset_date : Option String := none
  comorbidities : Option (List String) := none
  meds : Option (List String) := none
  language : Option String := none
  domain_hint : Option String := none

/-- `Explanation` of `mock_server.py`. -/
structure Explanation where
  feature : String
  weight : Option Rat := none

/-- `InferenceResponse` of `mock_server.py`. -/
structure InferenceResponse where
  class_ : Option String
  confidence : Rat
  explanations : List Explanation := []
  warnings : List String := []
  model_version : String := "mock-fastapi-1.0"

/-- Python truthiness of an optional string (`None` and `""` falsy). -/
def pyStrTruthy : Option String → Bool
  | none => false
  | some t => t ≠ ""

/-- The body of the `/v1/model/infer` handler (`infer` of
`mock_server.py`, lines 46–88): pediatric domain hint first, then the
crushing-chest-pain rule, then the broader chest/exertion rule, then
the low-signal fallback. -/
def infer (req : InferenceRequest) : InferenceResponse :=
  let text := strLower (req.chief_complaint.getD "")
  if pyStrTruthy req.domain_hint
      && strContains (strLower (req.domain_hint.getD "")) "pediatric" then
    { class_ := some "needs_review", confidence := 0.4,
      explanations := [⟨"domain_mismatch", some 0.1⟩],
      warnings := ["out-of-distribution: unsupported domain", "needs review"] }
  else if strContains text "crushing chest pain" then
    { class_ := some "urgent", confidence := 0.95,
      explanations := [⟨"crushing chest pain", some 0.9⟩],
      warnings := ["urgent escalation"] }
  else if strContains text "chest" || strContains text "exert" then
    { class_ := some "elevated_risk", confidence := 0.82,
      explanations := [⟨"chest", some 0.6⟩],
      warnings := [] }
  else
    { class_ := some "needs_review", confidence := 0.45,
      explanations := [⟨"low_signal", some 0.1⟩],
      warnings := ["low confidence—needs review"] }

/-- pydantic range check `age: Optional[int] = Field(None, ge=0, le=120)`. -/
def ageOutOfRange : Option Int → Bool
  | none => false
  | some a => a < 0 || 120 < a

/-- The endpoint including pydantic validation: an empty `patient_id`
(violating `min_length=1`) or an out-of-range `age` yields HTTP 422
before the handler runs; otherwise the handler's response is returned
with HTTP 200. -/
def inferEndpoint (req : InferenceRequest) : Except Int InferenceResponse :=
  if req.patient_id = "" then .error 422
  else if ageOutOfRange req.age then .error 422
  else .ok (infer req)

/-- **C8.** A POST to `/v1/model/infer` with a valid `patient_id`,
chief complaint "Crushing chest pain right now with sweating.", and no
pediatric `domain_hint` returns class `"urgent"`, confidence at least
0.9, and a warnings list containing an entry matching "urgent" or
"escalation" case-insensitively. -/
theorem c8_crushing_chest_pain_urgent :
    ∀ req : InferenceRequest,
      req.patient_id ≠ "" →
      ageOutOfRange req.age = false →
      req.chief_complaint = some "Crushing chest pain right now with sweating." →
      (∀ dh, req.domain_hint = some dh → strContains (strLower dh) "pediatric" = false) →
      ∃ resp, inferEndpoint req = .ok resp
        ∧ resp.class_ = some "urgent"
        ∧ (9 : Rat)/10 ≤ resp.confidence
        ∧ ∃ w ∈ resp.warnings,
            (strContains (strLower w) "urgent" || strContains (strLower w) "escalation")
              = true := by
  intro req h1 h2 h3 h4
  have hd : (pyStrTruthy req.domain_hint
      && strContains (strLower (req.domain_hint.getD "")) "pediatric") = false := by
    cases hdh : req.domain_hint with
    | none => simp [pyStrTruthy]
    | some dh => simp [h4 dh hdh]
  have hc : strContains
      (strLower "Crushing chest pain right now with sweating.")
      "crushing chest pain" = true := by decide
  refine ⟨infer req, ?_, ?_, ?_, ?_⟩
  · rw [inferEndpoint, if_neg h1, h2]
    rfl
  · rw [infer, h3]
    simp [hd, hc]
  · rw [infer, h3]
    simp only [hd, Option.getD_some, hc, Bool.false_eq_true, if_false, if_true]
    norm_num
  · rw [infer, h3]
    simp only [hd, Option.getD_some, hc, Bool.false_eq_true, if_false, if_true]
    exact ⟨"urgent escalation", by simp, by decide⟩

/-- Witness for C8: the concrete request of the scenario. -/
theorem c8_witness :
    ∃ resp,
      inferEndpoint
        { patient_id := "p1",
          chief_complaint := some "Crushing chest pain right now with sweating." }
        = .ok resp
      ∧ resp.class_ = some "urgent"
      ∧ (9 : Rat)/10 ≤ resp.confidence
      ∧ ∃ w ∈ resp.warnings,
          (strContains (strLower w) "urgent" || strContains (strLower w) "escalation")
            = true :=
  c8_crushing_chest_pain_urgent
    { patient_id := "p1",
      chief_complaint := some "Crushing chest pain right now with sweating." }
    (by decide) rfl rfl (fun dh h => Option.noConfusion h)

/-- One `<testcase>` element of a JUnit document.  Attributes are
`Option`s (`none` = attribute absent).  A child element (`<failure>`,
`<error>`, `<skipped>`) is `some t?` when present, `t?` being its
(optional) text. -/
structure TestCaseXml where
  name : Option String := none
  classname : Option String := none
  time : Option String := none
  failureChild : Option (Option String) := none
  errorChild : Option (Option String) := none
  skippedChild : Option (Option String) := none

/-- One `<testsuite>` element.  The numeric attributes are modelled by
their integer value (`int(...)` applied to the attribute string); a
present attribute string is always truthy in Python, even `"0"`, which
is why `skippedAttr = some 0` still takes precedence over `skipsAttr`
in `skippedOf`. -/
structure SuiteXml where
  testsAttr : Option Int := none
  failuresAttr : Option Int := none
  errorsAttr : Option Int := none
  skippedAttr : Option Int := none
  skipsAttr : Option Int := none
  testcases : List TestCaseXml := []

/-- The root of a JUnit document: `<testsuites>` with suite children,
a bare `<testsuite>`, or any other tag (whose direct `<testsuite>`
children are used). -/
inductive JUnitXml where
  | suitesRoot (suites : List SuiteXml)
  | suiteRoot (s : SuiteXml)
  | otherRoot (suites : List SuiteXml)

/-- The suite list examined by `parse_junit` (lines 25–31). -/
def suitesOf : JUnitXml → List SuiteXml
  | .suitesRoot l => l
  | .suiteRoot s => [s]
  | .otherRoot l => l

/-- `int(s.attrib.get("skipped", 0) or s.attrib.get("skips", 0) or 0)`. -/
def skippedOf (s : SuiteXml) : Int :=
  match s.skippedAttr with
  | some v => v
  | none =>
    match s.skipsAttr with
    | some v => v
    | none => 0

/-- A testcase with a `<failure>` or `<error>` child. -/
def caseFailed (c : TestCaseXml) : Bool :=
  c.failureChild.isSome || c.errorChild.isSome

/-- A testcase counted as passed: no failure, error or skipped child. -/
def casePassed (c : TestCaseXml) : Bool :=
  !(c.failureChild.isSome || c.errorChild.isSome || c.skippedChild.isSome)

/-- One entry of `failed_cases` (parse_junit lines 60–66). -/
structure FailedCase where
  name : Option String := none
  classname : Option String := none
  time : Option String := none
  content : String := ""
  type : String := ""
deriving DecidableEq

/-- The `failed_cases` dict built for a failing testcase:
`content = (fail.text or "") if fail is not None else (err.text or "")`,
`type = "failure" if fail is not None else "error"`. -/
def failedCaseOf (c : TestCaseXml) : FailedCase :=
  { name := c.name
    classname := c.classname
    time := c.time
    content :=
      match c.failureChild with
      | some t => t.getD ""
      | none => (c.errorChild.getD none).getD ""
    type := if c.failureChild.isSome then "failure" else "error" }

/-- The summary dict returned by `parse_junit`. -/
structure JUnitSummary where
  total : Int
  passed : Int
  failures : Int
  errors : Int
  skipped : Int
  failed_cases : List FailedCase

/-- `parse_junit` of `generate_regression_report.py` (lines 17–85):
suite-level attribute totals are accumulated with default 0; each
testcase with a failure/error child contributes a `failed_cases` entry
(skipped cases contribute nothing, all remaining cases increment the
per-testcase `passed` counter); and if the per-testcase counter ends at
zero, `passed` is replaced by `total - failures - errors - skipped`. -/
def parse_junit (doc : JUnitXml) : JUnitSummary :=
  let suites := suitesOf doc
  let total : Int := (suites.map (fun s => s.testsAttr.getD 0)).sum
  let failures : Int := (suites.map (fun s => s.failuresAttr.getD 0)).sum
  let errors : Int := (suites.map (fun s => s.errorsAttr.getD 0)).sum
  let skipped : Int := (suites.map skippedOf).sum
  let passedCases : Nat :=
    (suites.map (fun s => (s.testcases.filter casePassed).length)).sum
  let failed_cases : List FailedCase :=
    (suites.map (fun s => (s.testcases.filter caseFailed).map failedCaseOf)).flatten
  { total := total
    passed :=
      if passedCases = 0 then total - failures - errors - skipped
      else (passedCases : Int)
    failures := failures
    errors := errors
    skipped := skipped
    failed_cases := failed_cases }

/-- The healthy-baseline recommendations of `generate_html`
(lines 98–100). -/
def healthyRecs : List String :=
  ["All tests passed — baseline looks healthy. Recommend promoting this run as a regression baseline and gating merges on P0 tests.",
   "Keep the generated HTML and JUnit artifacts attached to the CI run for traceability."]

/-- The triage recommendations of `generate_html` (lines 102–104). -/
def triageRecs : List String :=
  ["Prioritize triage of failing P0 tests immediately. Create reproducible bug tickets including the failing test name, input payload, and stack trace.",
   "If failures are flaky, rerun the tests to confirm. Consider isolating flaky tests and adding retries or marking as flaky until fixed.",
   "For each defect, add a regression test that reproduces the bug and include a short reproduction section in the ticket."]

/-- `html.escape` of one character (quote=True default: `&`, `<`, `>`,
double quote and apostrophe become entities). -/
def escChar (c : Char) : List Char :=
  if c = Char.ofNat 38 then "&amp;".data
  else if c = '<' then "&lt;".data
  else if c = '>' then "&gt;".data
  else if c = Char.ofNat 34 then "&quot;".data
  else if c = Char.ofNat 39 then "&#x27;".data
  else [c]

/-- `html.escape(s)` (sequential replaces are equivalent to this
character-wise expansion since `&` is replaced first). -/
def htmlEscape (s : String) : String := ⟨(s.data.map escChar).flatten⟩

/-- Python `str.strip()`: drop whitespace from both ends. -/
def pyStrip (s : String) : String :=
  ⟨((s.data.dropWhile Char.isWhitespace).reverse.dropWhile Char.isWhitespace).reverse⟩

/-- The four `<td>` texts of a defect-table row (generate_html
lines 125–134). -/
structure DefectRow where
  name : String
  classname : String
  type : String
  message : String
deriving DecidableEq

/-- Row rendering: `html.escape(fcase.get('name',''))`,
`html.escape(fcase.get('classname') or '')`,
`html.escape(fcase.get('type'))`,
`msg = html.escape((fcase.get('content') or '').strip())`. -/
def rowOf (fc : FailedCase) : DefectRow :=
  { name := htmlEscape (fc.name.getD "")
    classname := htmlEscape (fc.classname.getD "")
    type := htmlEscape fc.type
    message := htmlEscape (pyStrip fc.content) }

/-- The semantically relevant output of `generate_html` (lines 88–153):
the recommendations list, whether the "No failing tests detected" note
replaces the defect table, and the defect-table rows in order.  The
surrounding fixed markup (CSS, headings, the suggested-next-steps list)
carries no per-run data and is elided. -/
structure RegressionReport where
  recs : List String
  noDefectNote : Bool
  defectRows : List DefectRow

/-- `generate_html`: recommendations depend only on
`failures + errors == 0`; the defect table renders one row per
`failed_cases` entry.  `html.escape(None)` raises, so a failing case
whose testcase had no `name` attribute (name `None`, reached via
`fcase.get('name','')` because the key is present) makes the renderer
raise — modelled by the `.error` branch. -/
def generate_html (summary : JUnitSummary) : Except PyErr RegressionReport :=
  if summary.failed_cases.all (fun fc => fc.name.isSome) then
    .ok { recs := if summary.failures + summary.errors = 0 then healthyRecs else triageRecs
          noDefectNote := summary.failed_cases.isEmpty
          defectRows := summary.failed_cases.map rowOf }
  else .error "AttributeError"

/-- **C7 counterexample.**  The claim ties the healthy-baseline
recommendations and the empty defect table to the same condition.  The
code drives them from different data: recommendations from the
suite-level `failures`/`errors` *attributes*, the defect table from the
per-testcase failure/error *children*.  For this document the
attributes say zero failures and zero errors, yet one testcase carries
a `<failure>` child: the report pairs the healthy-baseline guidance
with a non-empty defect table — under either reading of the claim's
condition, one of its two conclusions fails. -/
theorem c7_counterexample :
    (parse_junit (.suiteRoot
        { testsAttr := some 1, failuresAttr := some 0, errorsAttr := some 0,
          testcases := [{ name := some "t1",
                          failureChild := some (some "boom") }] })).failures = 0
    ∧ (parse_junit (.suiteRoot
        { testsAttr := some 1, failuresAttr := some 0, errorsAttr := some 0,
          testcases := [{ name := some "t1",
                          failureChild := some (some "boom") }] })).errors = 0
    ∧ generate_html (parse_junit (.suiteRoot
        { testsAttr := some 1, failuresAttr := some 0, errorsAttr := some 0,
          testcases := [{ name := some "t1",
                          failureChild := some (some "boom") }] }))
      = .ok { recs := healthyRecs, noDefectNote := false,
              defectRows := [{ name := "t1", classname := "", type := "failure",
                               message := "boom" }] }
    ∧ healthyRecs ≠ triageRecs :=
  ⟨rfl, rfl, rfl, by decide⟩

theorem failed_rows_length (suites : List SuiteXml) :
    (((suites.map (fun s => (s.testcases.filter caseFailed).map failedCaseOf)).flatten).map
        rowOf).length
      = (suites.map (fun s => (s.testcases.filter caseFailed).length)).sum := by
  induction suites with
  | nil => simp
  | cons s rest ih =>
    simp only [List.map_cons, List.flatten_cons, List.map_append, List.length_append,
      List.length_map, List.sum_cons, ih]

/-- **C7 (amended).**  For every parsed test-results summary (whose
failing cases carry names, as pytest's JUnit export always does): the
recommendations section contains the healthy-baseline guidance exactly
when the suite-level failures+errors counts are zero and the triage
guidance otherwise; independently, the defect table contains exactly
one row per testcase having a failure or error child — each row
rendering that case's (escaped) name and its (stripped, escaped)
failure text — and has no rows exactly when no testcase has such a
child.  When the suite-level counts agree with the per-case children
(any consistent export), this reduces to the claim as stated. -/
theorem c7_recommendations_and_defect_rows :
    ∀ doc : JUnitXml,
      (∀ fc ∈ (parse_junit doc).failed_cases, fc.name.isSome = true) →
      ∃ r, generate_html (parse_junit doc) = .ok r
        ∧ (r.recs = healthyRecs ↔
            (parse_junit doc).failures + (parse_junit doc).errors = 0)
        ∧ (r.recs = triageRecs ↔
            ¬((parse_junit doc).failures + (parse_junit doc).errors = 0))
        ∧ r.defectRows = (parse_junit doc).failed_cases.map rowOf
        ∧ r.defectRows.length
            = ((suitesOf doc).map (fun s => (s.testcases.filter caseFailed).length)).sum
        ∧ (r.defectRows = [] ↔
            ((suitesOf doc).map (fun s => (s.testcases.filter caseFailed).length)).sum
              = 0) := by
  intro doc h
  have hne : healthyRecs ≠ triageRecs := by decide
  have hall : (parse_junit doc).failed_cases.all (fun fc => fc.name.isSome) = true :=
    List.all_eq_true.mpr h
  have hgen : generate_html (parse_junit doc)
      = .ok { recs := if (parse_junit doc).failures + (parse_junit doc).errors = 0
                      then healthyRecs else triageRecs
              noDefectNote := (parse_junit doc).failed_cases.isEmpty
              defectRows := (parse_junit doc).failed_cases.map rowOf } := by
    simp [generate_html, hall]
  have hlen : ((parse_junit doc).failed_cases.map rowOf).length
      = ((suitesOf doc).map (fun s => (s.testcases.filter caseFailed).length)).sum :=
    failed_rows_length (suitesOf doc)
  refine ⟨_, hgen, ?_, ?_, rfl, hlen, ?_⟩
  · by_cases hz : (parse_junit doc).failures + (parse_junit doc).errors = 0
    · simp [hz]
    · simp only [hz, if_false, iff_false]
      exact fun hcontra => hne hcontra.symm
  · by_cases hz : (parse_junit doc).failures + (parse_junit doc).errors = 0
    · simp only [hz, if_true, not_true, iff_false]
      exact hne
    · simp [hz]
  · rw [← hlen]
    simp [List.length_eq_zero]

/-- Witness for C7's amended theorem: a consistent export with one
passing test gets the healthy guidance and an empty defect table. -/
theorem c7_witness :
    ∃ r, generate_html (parse_junit (.suiteRoot
        { testsAttr := some 1, failuresAttr := some 0, errorsAttr := some 0,
          testcases := [{ name := some "t1" }] })) = .ok r
      ∧ r.recs = healthyRecs ∧ r.defectRows = [] := by
  obtain ⟨r, hr, hh, -, -, -, hempty⟩ :=
    c7_recommendations_and_defect_rows
      (.suiteRoot { testsAttr := some 1, failuresAttr := some 0, errorsAttr := some 0,
                    testcases := [{ name := some "t1" }] })
      (by decide)
  exact ⟨r, hr, hh.mpr (by decide), hempty.mpr (by decide)⟩

/-- **C9.** `parse_junit` reports `passed` as the number of testcase
elements with no failure/error/skipped child when that count is
positive; otherwise as the remainder `total - failures - errors -
skipped` computed from the suite-level attributes — a remainder that
can disagree with the per-testcase view (second concrete document:
remainder 2 while no testcase passed) and can be negative for
inconsistent inputs (first concrete document: -2). -/
theorem c9_passed_count :
    (∀ doc : JUnitXml,
      (parse_junit doc).passed =
        (if 0 < ((suitesOf doc).map (fun s => (s.testcases.filter casePassed).length)).sum
         then (((suitesOf doc).map
                (fun s => (s.testcases.filter casePassed).length)).sum : Int)
         else (parse_junit doc).total - (parse_junit doc).failures
              - (parse_junit doc).errors - (parse_junit doc).skipped))
    ∧ (parse_junit (.suiteRoot { testsAttr := some 0, failuresAttr := some 2 })).passed
        = -2
    ∧ (parse_junit (.suiteRoot
        { testsAttr := some 3, failuresAttr := some 1,
          testcases := [{ name := some "t1",
                          failureChild := some (some "x") }] })).passed = 2
    ∧ ((suitesOf (.suiteRoot
        { testsAttr := some 3, failuresAttr := some 1,
          testcases := [{ name := some "t1",
                          failureChild := some (some "x") }] })).map
        (fun s => (s.testcases.filter casePassed).length)).sum = 0 := by
  refine ⟨?_, rfl, rfl, rfl⟩
  intro doc
  by_cases h : ((suitesOf doc).map (fun s => (s.testcases.filter casePassed).length)).sum
      = 0
  · simp [parse_junit, h]
  · simp [parse_junit, h, Nat.pos_of_ne_zero h, Function.comp_def]
